import Mathlib

/-!
Verification development for the package-scaffolding script
(`scripts/create.ts` of the ganache monorepo): a shallow embedding of the
generation pipeline (name validation, template construction, concurrent
file emission) together with theorems about the frozen claims.

Conventions of the embedding:
* paths are modelled relative to the workspace root and joined with `/`;
* the structured documents produced by the script fit a small typed JSON
  fragment (`JDoc`): a top-level object whose values are strings, numbers,
  arrays of strings, or one-level objects of strings; the serializers
  below mirror `JSON.stringify(x)` and `JSON.stringify(x, null, 2)` on
  this fragment;
* external collaborators (prettier, camelcase, git-user-name, the root
  manifest) are passed in as explicit parameters;
* the JavaScript `x || y` fallback on strings (empty string is falsy) is
  modelled by `jsOr`.
-/

namespace CreateScript

/-- JavaScript `a || b` where `a` is a possibly-absent string:
`undefined` and `""` both fall through to `b`. -/
def jsOr (a : Option String) (b : String) : String :=
  match a with
  | none => b
  | some s => if s = "" then b else s

/-- `path.join` restricted to the forward-slash form used here. -/
def pjoin (a b : String) : String := a ++ "/" ++ b

/-- Scoped package name: `"@ganache/" + name` (line 109 of the source). -/
def packageName (n : String) : String := "@ganache/" ++ n

/-- The fixed initial version (line 111). -/
def initialVersion : String := "0.1.0"

/-- `folderName = argv.folder || name` (line 88). -/
def folderNameOf (n : String) (f : Option String) : String := jsOr f n

/-- `dir = join(workspaceDir, "packages", folderName)` (line 102),
relative to the workspace root. -/
def dirOf (n : String) (f : Option String) : String :=
  pjoin "packages" (folderNameOf n f)

/-! ### A typed JSON fragment and the two serializers used by the script -/

/-- Atomic JSON values occurring in the generated documents. -/
inductive Atom where
  | s : String → Atom
  | n : Nat → Atom
  | arr : List String → Atom
deriving DecidableEq

/-- A top-level JSON value: an atom or a one-level object of strings. -/
inductive JVal where
  | a : Atom → JVal
  | o : List (String × String) → JVal
deriving DecidableEq

/-- A structured document: an ordered list of top-level fields
(`JSON.stringify` preserves the insertion order of string keys). -/
abbrev JDoc := List (String × JVal)

/-- String escaping as performed by `JSON.stringify`. -/
def escL : List Char → List Char
  | [] => []
  | c :: cs =>
    (if c = '"' then ['\\', '"']
     else if c = '\\' then ['\\', '\\']
     else if c = '\n' then ['\\', 'n']
     else [c]) ++ escL cs

/-- A JSON string literal. -/
def quoteL (s : String) : List Char := '"' :: (escL s.data ++ ['"'])

/-- Join chunks with a separator. -/
def joinWith (s : List Char) : List (List Char) → List Char
  | [] => []
  | [x] => x
  | x :: y :: ys => x ++ s ++ joinWith s (y :: ys)

/-- Indentation: `k` spaces. -/
def pad (k : Nat) : List Char := List.replicate k ' '

/-- Compact serialization of an atom (`JSON.stringify(x)`). -/
def atomC : Atom → List Char
  | .s v => quoteL v
  | .n v => (Nat.repr v).data
  | .arr vs => '[' :: (joinWith [','] (vs.map quoteL) ++ [']'])

/-- Compact serialization of a value. -/
def jvalC : JVal → List Char
  | .a t => atomC t
  | .o [] => ['{', '}']
  | .o (f :: fs) =>
    '{' :: (joinWith [','] ((f :: fs).map
      (fun q => quoteL q.1 ++ ':' :: quoteL q.2)) ++ ['}'])

/-- Compact serialization of a document. -/
def jdocC : JDoc → List Char
  | [] => ['{', '}']
  | f :: fs =>
    '{' :: (joinWith [','] ((f :: fs).map
      (fun q => quoteL q.1 ++ ':' :: jvalC q.2)) ++ ['}'])

/-- Indented serialization of an atom whose enclosing field sits at
nesting depth `d` (`JSON.stringify(x, null, 2)`). -/
def atomI (d : Nat) : Atom → List Char
  | .s v => quoteL v
  | .n v => (Nat.repr v).data
  | .arr [] => ['[', ']']
  | .arr (v :: vs) =>
    '[' :: '\n' :: (joinWith [',', '\n'] ((v :: vs).map
      (fun x => pad (2 * (d + 1)) ++ quoteL x)) ++ '\n' :: (pad (2 * d) ++ [']']))

/-- Indented serialization of a value at depth `d`. -/
def jvalI (d : Nat) : JVal → List Char
  | .a t => atomI d t
  | .o [] => ['{', '}']
  | .o (f :: fs) =>
    '{' :: '\n' :: (joinWith [',', '\n'] ((f :: fs).map
      (fun q => pad (2 * (d + 1)) ++ quoteL q.1 ++ ':' :: ' ' :: quoteL q.2))
      ++ '\n' :: (pad (2 * d) ++ ['}']))

/-- Indented serialization of a document (top level, depth 0). -/
def jdocI : JDoc → List Char
  | [] => ['{', '}']
  | f :: fs =>
    '{' :: '\n' :: (joinWith [',', '\n'] ((f :: fs).map
      (fun q => pad 2 ++ quoteL q.1 ++ ':' :: ' ' :: jvalI 1 q.2))
      ++ ['\n', '}'])

/-- `JSON.stringify(x, null, 2)` on the fragment, as a string. -/
def jdocIndentStr (d : JDoc) : String := String.mk (jdocI d)

/-- `JSON.stringify(x)` on the fragment, as a string. -/
def jdocCompactStr (d : JDoc) : String := String.mk (jdocC d)

/-! ### Name validation

The script calls `validate-npm-package-name` (line 90) and aborts when
`validForNewPackages` is false (lines 91-95). -/

/-- Result shape of the validity checker, per the collaborator interface:
`validate(name) -> \x7b validForNewPackages: bool, errors: list<string> \x7d`. -/
structure NameValidation where
  validForNewPackages : Bool
  errors : List String
deriving DecidableEq

/-- Characters a registry name may contain (URL-friendly charset). -/
def urlFriendly (c : Char) : Bool :=
  c.isAlphanum || c = '-' || c = '_' || c = '.' || c = '~'

/-- Modelled from the spec: the registry naming rules applied by the
external `validate-npm-package-name` collaborator, whose source is not
part of this repository.  Each rule pairs a violation test with the
violation message it contributes (lowercase, allowed punctuation, length
bounds, no reserved prefixes, nonempty, no surrounding spaces). -/
def nameRules : List ((String → Bool) × String) :=
  [ (fun s => s.data.isEmpty, "name length must be greater than zero"),
    (fun s => s.data.head? = some '.', "name cannot start with a period"),
    (fun s => s.data.head? = some '_', "name cannot start with an underscore"),
    (fun s => s.data.head? = some ' ' || s.data.getLast? = some ' ',
      "name cannot contain leading or trailing spaces"),
    (fun s => s.data.any (fun c => c.isUpper), "name cannot contain capital letters"),
    (fun s => decide (214 < s.data.length), "name cannot contain more than 214 characters"),
    (fun s => !(s.data.all urlFriendly), "name can only contain URL-friendly characters") ]

/-- All violation messages for a proposed name (every violated rule
contributes its message; not just the first). -/
def violationsOf (s : String) : List String :=
  (nameRules.filter (fun r => r.1 s)).map (fun r => r.2)

/-- Modelled from the spec: the validity checker.  A name is valid for
new packages exactly when no rule is violated, and `errors` carries the
complete list of violations. -/
def npmValiddate (s : String) : NameValidation :=
  { validForNewPackages := (violationsOf s).isEmpty, errors := violationsOf s }

/-! ### Template builder -/

/-- `publishConfig` object of the manifest (lines 117-119). -/
structure PublishConfig where
  access : String
deriving DecidableEq

/-- `directories` object of the manifest (lines 128-131). -/
structure Directories where
  lib : String
  test : String
deriving DecidableEq

/-- `repository` object of the manifest (lines 133-137). -/
structure Repository where
  type : String
  url : String
  directory : String
deriving DecidableEq

/-- `scripts` object of the manifest (lines 138-143). -/
structure Scripts where
  tsc : String
  test : String
  mocha : String
deriving DecidableEq

/-- `bugs` object of the manifest (lines 144-146). -/
structure Bugs where
  url : String
deriving DecidableEq

/-- The generated manifest object `pkg` (lines 115-170).  Dev-dependency
values are `Option String` because the corresponding root-manifest entry
may be absent (`undefined` in JavaScript). -/
structure Pkg where
  name : String
  publishConfig : PublishConfig
  version : String
  description : String
  author : String
  homepage : String
  license : String
  main : String
  typings : String
  source : String
  directories : Directories
  files : List String
  repository : Repository
  scripts : Scripts
  bugs : Bugs
  keywords : List String
  devDependencies : List (String × Option String)
deriving DecidableEq

/-- Construction of `pkg` from the validated name, the optional folder
override, the detected git user name (`userName()`, possibly absent),
the root manifest's `author`, and the root manifest's `devDependencies`
lookup (lines 115-170 of the source, verbatim). -/
def mkPkg (n : String) (f : Option String) (gitUser : Option String)
    (rootAuthor : String) (rootDevDeps : String → Option String) : Pkg :=
  let folderName := folderNameOf n f
  { name := packageName n,
    publishConfig := { access := "public" },
    version := initialVersion,
    description := "",
    author := jsOr gitUser rootAuthor,
    homepage := "https://github.com/trufflesuite/ganache/tree/develop/packages/"
      ++ folderName ++ "#readme",
    license := "MIT",
    main := "lib/index.js",
    typings := "typings",
    source := "index.ts",
    directories := { lib := "lib", test := "tests" },
    files := ["lib", "typings"],
    repository := { type := "git",
                    url := "https://github.com/trufflesuite/ganache.git",
                    directory := "packages/" ++ folderName },
    scripts := { tsc := "ttsc --build",
                 test := "nyc npm run mocha",
                 mocha := "cross-env TS_NODE_FILES=true mocha --exit --check-leaks --throw-deprecation --trace-warnings --require ts-node/register \x27tests/**/*.test.ts\x27" },
    bugs := { url := "https://github.com/trufflesuite/ganache/issues" },
    keywords := ["ganache", "ganache-" ++ n, "ethereum", "evm", "blockchain",
      "smart contracts", "dapps", "solidity", "vyper", "fe", "web3",
      "tooling", "truffle"],
    devDependencies :=
      [("@types/mocha", rootDevDeps "@types/mocha"),
       ("cross-env", rootDevDeps "cross-env"),
       ("mocha", rootDevDeps "mocha"),
       ("nyc", rootDevDeps "nyc"),
       ("ts-node", rootDevDeps "ts-node"),
       ("typescript", rootDevDeps "typescript")] }

/-- The six dev-dependency keys named in the `pkg` literal, in order. -/
def devDepsKeys : List String :=
  ["@types/mocha", "cross-env", "mocha", "nyc", "ts-node", "typescript"]

/-- The serialized dev-dependency entries: `JSON.stringify` drops keys
whose value is `undefined`. -/
def devDepsEntries (p : Pkg) : List (String × String) :=
  p.devDependencies.filterMap (fun q => q.2.map (fun v => (q.1, v)))

/-- The manifest as a structured document, in the field order of the
`pkg` object literal. -/
def pkgJDoc (p : Pkg) : JDoc :=
  [ ("name", .a (.s p.name)),
    ("publishConfig", .o [("access", p.publishConfig.access)]),
    ("version", .a (.s p.version)),
    ("description", .a (.s p.description)),
    ("author", .a (.s p.author)),
    ("homepage", .a (.s p.homepage)),
    ("license", .a (.s p.license)),
    ("main", .a (.s p.main)),
    ("typings", .a (.s p.typings)),
    ("source", .a (.s p.source)),
    ("directories", .o [("lib", p.directories.lib), ("test", p.directories.test)]),
    ("files", .a (.arr p.files)),
    ("repository", .o [("type", p.repository.type), ("url", p.repository.url),
      ("directory", p.repository.directory)]),
    ("scripts", .o [("tsc", p.scripts.tsc), ("test", p.scripts.test),
      ("mocha", p.scripts.mocha)]),
    ("bugs", .o [("url", p.bugs.url)]),
    ("keywords", .a (.arr p.keywords)),
    ("devDependencies", .o (devDepsEntries p)) ]

/-- `relativePathToSrc = "../".repeat(1)` (lines 98-99). -/
def relativePathToSrc : String := String.join (List.replicate 1 "../")

/-- The `tsConfig` object (lines 172-179). -/
def tsConfigJDoc : JDoc :=
  [ ("extends", .a (.s (relativePathToSrc ++ "tsconfig-base.json"))),
    ("compilerOptions", .o [("outDir", "lib"), ("declarationDir", "typings")]),
    ("include", .a (.arr ["src", "index.ts"])) ]

/-- The `shrinkwrap` object (lines 181-185). -/
def shrinkwrapJDoc (n : String) : JDoc :=
  [ ("name", .a (.s (packageName n))),
    ("version", .a (.s initialVersion)),
    ("lockfileVersion", .a (.n 1)) ]

/-- `pkgStr = JSON.stringify(pkg, null, 2) + "\n"` (line 261). -/
def pkgStr (p : Pkg) : String := jdocIndentStr (pkgJDoc p) ++ "\n"

/-- The bytes written to `tsconfig.json` (lines 274-277). -/
def tsConfigStr : String := jdocIndentStr tsConfigJDoc ++ "\n"

/-- The bytes written to `npm-shrinkwrap.json`:
`JSON.stringify(shrinkwrap) + "\n"` (lines 286-289). -/
def shrinkwrapStr (n : String) : String := jdocCompactStr (shrinkwrapJDoc n) ++ "\n"

/-! ### Textual documents -/

/-- The `indexFile` template (lines 194-197). -/
def indexFile : String := "export default \x7b\n  // TODO\n\x7d\n"

/-- The `testFile` template (lines 187-192); `cc` is the external
`camelcase` collaborator. -/
def testFile (cc : String → String) (n : String) : String :=
  "import assert from \"assert\";\nimport " ++ cc n ++ " from \"../src/\";\n\ndescribe(\""
    ++ packageName n ++ "\", () => \x7b\n  it(\"needs tests\");\n\x7d)"

/-- The `headerdoc` license-retention comment prepended to the package
root entry stub (lines 217-224). -/
def headerdoc (p : Pkg) : String :=
  "/*!\n  * " ++ p.name ++ "\n  *\n  * @author " ++ p.author ++ "\n  * @license "
    ++ p.license ++ "\n*/\n\n"

/-- The literal `.npmignore` contents (lines 237-248). -/
def npmignoreText : String :=
  "/index.ts\n/tests\n/.nyc_output\n/coverage\n/scripts\n/src\n/tsconfig.json\n/typedoc.json\n"

/-- The readme source text (line 280). -/
def readmeText (n : String) : String :=
  "# `" ++ packageName n ++ "`\n> TODO: description"

/-- How the second argument of each `writeFile` call is built: verbatim
text, text passed through `prettier.format` with a parser hint, or a
structured object serialized by `JSON.stringify` (indented or compact)
plus a newline. -/
inductive Content where
  | raw : String → Content
  | formatted : String → String → Content
  | jsonIndented : JDoc → Content
  | jsonCompactDoc : JDoc → Content
deriving DecidableEq

/-- The bytes a `Content` turns into, given the external formatter
`fmt parserHint text`. -/
def Content.render (fmt : String → String → String) : Content → String
  | .raw s => s
  | .formatted h s => fmt h s
  | .jsonIndented j => jdocIndentStr j ++ "\n"
  | .jsonCompactDoc j => jdocCompactStr j ++ "\n"

/-- Whether a content is a structured (JSON-serialized) document. -/
def Content.isStructured : Content → Bool
  | .jsonIndented _ => true
  | .jsonCompactDoc _ => true
  | _ => false

/-- Whether a content is passed through the formatting adapter
(`prettier.format`) before being written. -/
def Content.isFormattedDoc : Content → Bool
  | .formatted _ _ => true
  | _ => false

/-- The complete set of generated documents, keyed by path relative to
the new package directory, in the order the writes appear in the
`Promise.all` (lines 269-290; `initRootFiles` lines 235-251, `initIndex`
lines 214-232, `initTests` lines 253-259, `initSrc` lines 202-211). -/
def documents (n : String) (f : Option String) (gitUser : Option String)
    (rootAuthor : String) (rootDevDeps : String → Option String)
    (licenseText : String) (cc : String → String) : List (String × Content) :=
  let p := mkPkg n f gitUser rootAuthor rootDevDeps
  [ (".npmignore", .raw npmignoreText),
    ("LICENSE", .raw licenseText),
    ("index.ts", .formatted "typescript" (headerdoc p ++ indexFile)),
    ("tests/index.test.ts", .formatted "typescript" (testFile cc n)),
    ("src/index.ts", .formatted "typescript" indexFile),
    ("tsconfig.json", .jsonIndented tsConfigJDoc),
    ("README.md", .formatted "markdown" (readmeText n)),
    ("package.json", .jsonIndented (pkgJDoc p)),
    ("npm-shrinkwrap.json", .jsonCompactDoc (shrinkwrapJDoc n)) ]

/-! ### File emission

`mkdirSync(dir)` runs first (line 267) and throws `EEXIST` when the
directory already exists, in which case none of the writes of the
`Promise.all` (lines 269-290) is ever issued.  A failing write makes the
`Promise.all` reject with the triggering error; already-completed writes
are not rolled back.  The filesystem is modelled as the list of existing
paths, and write success by an oracle `w`. -/

/-- The nine write targets, relative to the workspace root. -/
def writeTargets (d : String) : List String :=
  [ pjoin d ".npmignore", pjoin d "LICENSE", pjoin d "index.ts",
    pjoin d "tests/index.test.ts", pjoin d "src/index.ts",
    pjoin d "tsconfig.json", pjoin d "README.md", pjoin d "package.json",
    pjoin d "npm-shrinkwrap.json" ]

/-- Result of emission: the filesystem afterwards, and the error the
operation rejected with, if any. -/
structure EmitResult where
  fs : List String
  err : Option String
deriving DecidableEq

/-- The emission step.  `fs` is the set of pre-existing paths and
`w p = true` means the write to `p` succeeds.  If the target directory
exists, `mkdirSync` throws before any write is issued; otherwise the
directory and its `tests`/`src` subdirectories are created, every
successful write lands in the filesystem, and the operation rejects
with the error of a failing write when one exists. -/
def emit (fs : List String) (d : String) (w : String → Bool) : EmitResult :=
  if d ∈ fs then
    { fs := fs, err := some ("EEXIST: file already exists, mkdir " ++ d) }
  else
    { fs := (writeTargets d).filter w ++ pjoin d "tests" :: pjoin d "src" :: d :: fs,
      err := ((writeTargets d).filter (fun p => !w p)).head?.map
        (fun p => "write failed: " ++ p) }

/-! ### Top-level control flow

Argument errors hit the custom yargs `.fail` handler, which prints the
message and calls `process.exit(0)` (lines 75-83).  The name-validation
throw (lines 91-95) happens inside the `async` IIFE but before the `try`
block (line 104), so it escapes as an unhandled promise rejection.  All
errors raised inside the `try` block (`mkdirSync`, the writes) are
caught (lines 313-319), logged together with a failure message, and the
process then ends normally with status zero. -/

/-- How a run of the script terminates. -/
inductive Outcome where
  | usageErrorExitZero : String → Outcome
  | uncaughtRejection : String → Outcome
  | reportedFailure : String → Outcome
  | success : Outcome
deriving DecidableEq

/-- Whether an outcome was caught/handled and ended the process with
status zero (an unhandled promise rejection is neither). -/
def Outcome.handledExitZero : Outcome → Bool
  | .uncaughtRejection _ => false
  | _ => true

/-- The message of the name-validation throw (lines 92-94); JavaScript
string interpolation renders the errors array comma-separated. -/
def invalidNameMsg (n : String) : String :=
  "the name \"" ++ n ++ "\" is not a valid npm package name:\n"
    ++ String.intercalate "," (npmValiddate n).errors

/-- A run of the script.  `a` is the parsed command line (`none` means
yargs failed to parse and invoked the `.fail` handler), `fs` the
pre-existing filesystem, `w` the write-success oracle. -/
def mainRun (a : Option (String × Option String)) (fs : List String)
    (w : String → Bool) : Outcome :=
  match a with
  | none => .usageErrorExitZero "Not enough non-option arguments"
  | some (n, f) =>
    if (npmValiddate n).validForNewPackages then
      match (emit fs (dirOf n f) w).err with
      | some e => .reportedFailure e
      | none => .success
    else
      .uncaughtRejection (invalidNameMsg n)

/-! ### Concurrency model for the emission

The `Promise.all` (lines 269-290) fans out nine concurrent branches;
`initRootFiles` is itself a `Promise.all` of two independent writes, so
the branches flatten to nine independent event sequences, two of which
(`mkdir(tests).then(initTests)` and `mkdir(src).then(initSrc)`) are
two-event sequences ordered by `.then`.  An execution is any
interleaving of these sequences on Node's single thread. -/

/-- The emission events. -/
inductive Ev where
  | mkTests | mkSrc
  | wNpmignore | wLicense | wIndex | wTestStub | wSrcStub
  | wTsconfig | wReadme | wPkg | wShrinkwrap
deriving DecidableEq

/-- The concurrent branches of the `Promise.all`, each a sequence whose
internal order is fixed by `.then` chaining. -/
def emissionTasks : List (List Ev) :=
  [ [.wNpmignore], [.wLicense], [.wIndex],
    [.mkTests, .wTestStub], [.mkSrc, .wSrcStub],
    [.wTsconfig], [.wReadme], [.wPkg], [.wShrinkwrap] ]

/-- One concrete fully sequential execution of the emission branches. -/
def seqTrace : List Ev :=
  [.wNpmignore, .wLicense, .wIndex, .mkTests, .wTestStub, .mkSrc, .wSrcStub,
   .wTsconfig, .wReadme, .wPkg, .wShrinkwrap]

/-- `Pick a ts us`: one branch of `ts` emits its next event `a`, leaving
the branch list `us`. -/
inductive Pick (a : Ev) : List (List Ev) → List (List Ev) → Prop where
  | head : ∀ {l : List Ev} {ts : List (List Ev)}, Pick a ((a :: l) :: ts) (l :: ts)
  | tail : ∀ {l : List Ev} {ts us : List (List Ev)},
      Pick a ts us → Pick a (l :: ts) (l :: us)

/-- `Interleaving ts tr`: the trace `tr` is one possible single-threaded
execution of the concurrent branches `ts`. -/
inductive Interleaving : List (List Ev) → List Ev → Prop where
  | nil : ∀ {ts : List (List Ev)}, (∀ l ∈ ts, l = []) → Interleaving ts []
  | cons : ∀ {a : Ev} {ts us : List (List Ev)} {tr : List Ev},
      Pick a ts us → Interleaving us tr → Interleaving ts (a :: tr)

/-- `s` ends with exactly one trailing newline. -/
def oneTrailingNL (s : String) : Prop :=
  s.data.getLast? = some '\n' ∧ s.data.dropLast.getLast? ≠ some '\n'

/-! ## Helper lemmas -/

theorem end_brace2 (c1 c2 : Char) (X : List Char) :
    (c1 :: c2 :: (X ++ ['\n', '}'])).getLast? = some '}' := by
  have h : c1 :: c2 :: (X ++ ['\n', '}']) = (c1 :: c2 :: (X ++ ['\n'])) ++ ['}'] := by simp
  rw [h, List.getLast?_concat]

theorem end_brace1 (c1 : Char) (X : List Char) :
    (c1 :: (X ++ ['}'])).getLast? = some '}' := by
  have h : c1 :: (X ++ ['}']) = (c1 :: X) ++ ['}'] := by simp
  rw [h, List.getLast?_concat]

/-- The indented serializer's output always ends in a closing brace. -/
theorem jdocI_getLast (d : JDoc) : (jdocI d).getLast? = some '}' := by
  cases d with
  | nil => rfl
  | cons f fs => exact end_brace2 '{' '\n' _

/-- The compact serializer's output always ends in a closing brace. -/
theorem jdocC_getLast (d : JDoc) : (jdocC d).getLast? = some '}' := by
  cases d with
  | nil => rfl
  | cons f fs => exact end_brace1 '{' _

/-- Appending `"\n"` to a serializer output appends `'\n'` to its bytes. -/
theorem data_append_nl (s : String) : (s ++ "\n").data = s.data ++ ['\n'] := by
  rw [String.data_append]

/-- A serialized-plus-newline document ends with exactly one newline
provided the serialized part ends in a closing brace. -/
theorem oneTrailingNL_of_brace {s : String} (h : s.data.getLast? = some '}') :
    oneTrailingNL (s ++ "\n") := by
  constructor
  · rw [data_append_nl, List.getLast?_concat]
  · rw [data_append_nl, List.dropLast_concat, h]
    simp

/-- When a branch emits its next event, every pending branch either
survives unchanged or loses exactly that event from its front. -/
theorem Pick.mem_cases {a : Ev} {ts us : List (List Ev)} (h : Pick a ts us) :
    ∀ l ∈ ts, l ∈ us ∨ ∃ m, l = a :: m ∧ m ∈ us := by
  induction h with
  | head =>
    intro l hl
    cases hl with
    | head => exact Or.inr ⟨_, rfl, List.Mem.head _⟩
    | tail _ h2 => exact Or.inl (List.Mem.tail _ h2)
  | tail p ih =>
    intro l hl
    cases hl with
    | head => exact Or.inl (List.Mem.head _)
    | tail _ h2 =>
      rcases ih l h2 with h3 | ⟨m, rfl, h4⟩
      · exact Or.inl (List.Mem.tail _ h3)
      · exact Or.inr ⟨m, rfl, List.Mem.tail _ h4⟩

/-- Every branch's internal event order survives into any interleaved
trace: each branch is a sublist of the trace. -/
theorem Interleaving.sublist_of_mem {ts : List (List Ev)} {tr : List Ev}
    (h : Interleaving ts tr) : ∀ l ∈ ts, List.Sublist l tr := by
  induction h with
  | nil h0 =>
    intro l hl
    rw [h0 l hl]
  | cons p _ ih =>
    intro l hl
    rcases p.mem_cases l hl with h1 | ⟨m, rfl, h2⟩
    · exact (ih l h1).cons _
    · exact (ih m h2).cons₂ _

/-! ## Claim theorems -/

/-- C1 (counterexample): with the folder override present but empty
(`--folder ""`), the manifest name is still the scoped raw name, but the
target directory is `packages/widgets`, not `packages/<folderOverride>`
(= `packages/`): the `argv.folder || name` fallback treats an empty
override as absent, so the claim as stated fails at this input. -/
theorem c1_dir_empty_override_cex :
    (mkPkg "widgets" (some "") none "a" (fun _ => none)).name = packageName "widgets" ∧
    dirOf "widgets" (some "") = pjoin "packages" "widgets" ∧
    dirOf "widgets" (some "") ≠ pjoin "packages" "" := by
  refine ⟨rfl, by decide, by decide⟩

/-- C1 (amended): for every validated name and folder override, the
generated manifest's name equals `@ganache/<rawName>` independently of
the override, and the target directory is `packages/<folderOverride>`
when a non-empty override is provided, else `packages/<rawName>` (an
empty-string override falls back to the raw name, by `||`). -/
theorem c1_name_and_dir (n : String) (f : Option String) (g : Option String)
    (ra : String) (r : String → Option String) :
    (mkPkg n f g ra r).name = "@ganache/" ++ n ∧
    (∀ s, f = some s → s ≠ "" → dirOf n f = pjoin "packages" s) ∧
    (f = none → dirOf n f = pjoin "packages" n) ∧
    (f = some "" → dirOf n f = pjoin "packages" n) := by
  refine ⟨rfl, ?_, ?_, ?_⟩
  · rintro s rfl hs
    simp [dirOf, folderNameOf, jsOr, hs]
  · rintro rfl
    rfl
  · rintro rfl
    rfl

/-- C1 (witness): concrete instance of `c1_name_and_dir` at name
`widgets` with override `custom` and with no override. -/
theorem c1_witness :
    (mkPkg "widgets" (some "custom") none "a" (fun _ => none)).name = "@ganache/" ++ "widgets" ∧
    dirOf "widgets" (some "custom") = pjoin "packages" "custom" ∧
    dirOf "widgets" none = pjoin "packages" "widgets" :=
  ⟨(c1_name_and_dir "widgets" (some "custom") none "a" (fun _ => none)).1,
   (c1_name_and_dir "widgets" (some "custom") none "a" (fun _ => none)).2.1 "custom" rfl (by decide),
   (c1_name_and_dir "widgets" none none "a" (fun _ => none)).2.2.1 rfl⟩

/-- C2: if the target directory already exists when emission starts,
`mkdirSync(dir)` throws before any write is issued: the operation fails
and the filesystem is left exactly as it was, so nothing inside the
pre-existing directory is created, overwritten, or merged into. -/
theorem c2_existing_dir_aborts (fs : List String) (d : String) (w : String → Bool)
    (h : d ∈ fs) :
    (emit fs d w).fs = fs ∧
    (emit fs d w).err = some ("EEXIST: file already exists, mkdir " ++ d) := by
  simp [emit, h]

/-- C2 (witness): concrete instance of `c2_existing_dir_aborts` with a
pre-existing `packages/widgets` directory. -/
theorem c2_witness :
    (emit ["packages/widgets"] "packages/widgets" (fun _ => true)).fs = ["packages/widgets"] ∧
    (emit ["packages/widgets"] "packages/widgets" (fun _ => true)).err =
      some ("EEXIST: file already exists, mkdir " ++ "packages/widgets") :=
  c2_existing_dir_aborts ["packages/widgets"] "packages/widgets" (fun _ => true) (by decide)

/-- C3: whenever at least one scheduled write fails, the run reports
failure with the triggering error attached (the `Promise.all` rejection
reaches the catch block), and every write that succeeded is left in
place in the filesystem: no rollback or deletion is performed. -/
theorem c3_write_failure (n : String) (f : Option String) (fs : List String)
    (w : String → Bool)
    (hv : (npmValiddate n).validForNewPackages = true)
    (hd : dirOf n f ∉ fs)
    (hw : ∃ p ∈ writeTargets (dirOf n f), w p = false) :
    (∃ p ∈ writeTargets (dirOf n f), w p = false ∧
      mainRun (some (n, f)) fs w = .reportedFailure ("write failed: " ++ p)) ∧
    (∀ p ∈ writeTargets (dirOf n f), w p = true → p ∈ (emit fs (dirOf n f) w).fs) := by
  constructor
  · rcases hfl : (writeTargets (dirOf n f)).filter (fun p => !w p) with _ | ⟨p0, rest⟩
    · exfalso
      rcases hw with ⟨p, hp, hwp⟩
      have : p ∈ (writeTargets (dirOf n f)).filter (fun p => !w p) :=
        List.mem_filter.mpr ⟨hp, by simp [hwp]⟩
      rw [hfl] at this
      exact absurd this (List.not_mem_nil _)
    · have hp0 : p0 ∈ (writeTargets (dirOf n f)).filter (fun p => !w p) := by
        rw [hfl]; exact List.Mem.head _
      have hp0t := List.mem_filter.mp hp0
      refine ⟨p0, hp0t.1, by simpa using hp0t.2, ?_⟩
      simp [mainRun, hv, emit, hd, hfl]
  · intro p hp hwp
    simp [emit, hd, List.mem_append, List.mem_filter]
    exact Or.inl ⟨hp, hwp⟩

/-- C3 (witness): with only the LICENSE write failing, the `.npmignore`
write that succeeded is still present in the final filesystem. -/
theorem c3_witness :
    pjoin (dirOf "widgets" none) ".npmignore" ∈
      (emit [] (dirOf "widgets" none) (fun p => !(p == pjoin (dirOf "widgets" none) "LICENSE"))).fs :=
  (c3_write_failure "widgets" none [] (fun p => !(p == pjoin (dirOf "widgets" none) "LICENSE"))
    (by decide) (by decide) (by decide)).2
    (pjoin (dirOf "widgets" none) ".npmignore") (by decide) (by decide)

/-- C4: for every name violating at least one registry naming rule,
validation fails (`validForNewPackages` is false) and the violation list
is non-empty and contains the message of every violated rule, not just
the first. -/
theorem c4_all_violations (s : String) (q : (String → Bool) × String)
    (hq : q ∈ nameRules) (hv : q.1 s = true) :
    (npmValiddate s).validForNewPackages = false ∧
    (npmValiddate s).errors ≠ [] ∧
    ∀ p ∈ nameRules, p.1 s = true → p.2 ∈ (npmValiddate s).errors := by
  have hmem : ∀ p ∈ nameRules, p.1 s = true → p.2 ∈ violationsOf s := by
    intro p hp hps
    exact List.mem_map.mpr ⟨p, List.mem_filter.mpr ⟨hp, by simp [hps]⟩, rfl⟩
  have hne : violationsOf s ≠ [] := by
    intro h0
    have h1 := hmem q hq hv
    rw [h0] at h1
    exact absurd h1 (List.not_mem_nil _)
  refine ⟨?_, hne, hmem⟩
  simp [npmValiddate, List.isEmpty_iff, hne]

/-- C4 (witness): `"_Bad name"` violates the underscore-prefix rule and
the no-capitals rule, and both messages appear in the violation list. -/
theorem c4_witness :
    (npmValiddate "_Bad name").validForNewPackages = false ∧
    ("name cannot start with an underscore" ∈ (npmValiddate "_Bad name").errors ∧
     "name cannot contain capital letters" ∈ (npmValiddate "_Bad name").errors) := by
  have h := c4_all_violations "_Bad name" (nameRules.get ⟨2, by decide⟩)
    (List.get_mem _ _ _) (by decide)
  refine ⟨h.1, ?_, ?_⟩
  · exact h.2.2 (nameRules.get ⟨2, by decide⟩) (List.get_mem _ _ _) (by decide)
  · exact h.2.2 (nameRules.get ⟨4, by decide⟩) (List.get_mem _ _ _) (by decide)

/-- C5 (counterexample): with every root dev-dependency present, the
generated `devDependencies` has six keys, not five: the claim's five
roles plus `@types/mocha` (the test-runner type declarations). -/
theorem c5_six_keys_cex :
    ((devDepsEntries (mkPkg "widgets" none none "a" (fun k => some (k ++ "@^1")))).map Prod.fst
      = ["@types/mocha", "cross-env", "mocha", "nyc", "ts-node", "typescript"]) ∧
    ((devDepsEntries (mkPkg "widgets" none none "a" (fun k => some (k ++ "@^1")))).map Prod.fst).length ≠ 5 := by
  refine ⟨by decide, by decide⟩

/-- C5 (amended): the serialized `devDependencies` contains exactly the
six keys `@types/mocha`, `cross-env`, `mocha`, `nyc`, `ts-node`,
`typescript`, each copied verbatim from the workspace root manifest;
keys missing from the root manifest are propagated as missing. -/
theorem c5_verbatim_subset (n : String) (f : Option String) (g : Option String)
    (ra : String) (r : String → Option String) (k v : String) :
    (k, v) ∈ devDepsEntries (mkPkg n f g ra r) ↔ k ∈ devDepsKeys ∧ r k = some v := by
  simp [devDepsEntries, mkPkg, devDepsKeys, List.mem_filterMap, Option.map_eq_some']
  aesop

/-- C5 (witness): with only `mocha` present in the root manifest, its
entry is copied verbatim into the generated manifest. -/
theorem c5_witness :
    ("mocha", "^7.1.0") ∈ devDepsEntries (mkPkg "widgets" none none "a"
      (fun k => if k == "mocha" then some "^7.1.0" else none)) :=
  (c5_verbatim_subset "widgets" none none "a"
    (fun k => if k == "mocha" then some "^7.1.0" else none) "mocha" "^7.1.0").mpr
    ⟨by decide, by decide⟩

/-- C6 (counterexample): the lockfile stub is written with the compact
serializer (`JSON.stringify(shrinkwrap)`), so its bytes are not the
two-space-indented serialization the claim asserts for every structured
document. -/
theorem c6_compact_shrinkwrap_cex :
    shrinkwrapStr "widgets" ≠ jdocIndentStr (shrinkwrapJDoc "widgets") ++ "\n" := by
  decide

/-- C6 (amended): the manifest and build config are serialized with
stable key ordering and two-space indentation, the lockfile stub with
stable key ordering but compact (no indentation); each of the three is
terminated by exactly one trailing newline. -/
theorem c6_serialization (p : Pkg) (n : String) :
    (pkgStr p = jdocIndentStr (pkgJDoc p) ++ "\n" ∧
     tsConfigStr = jdocIndentStr tsConfigJDoc ++ "\n" ∧
     shrinkwrapStr n = jdocCompactStr (shrinkwrapJDoc n) ++ "\n") ∧
    (oneTrailingNL (pkgStr p) ∧ oneTrailingNL tsConfigStr ∧ oneTrailingNL (shrinkwrapStr n)) := by
  refine ⟨⟨rfl, rfl, rfl⟩, ?_, ?_, ?_⟩
  · exact oneTrailingNL_of_brace (jdocI_getLast (pkgJDoc p))
  · exact oneTrailingNL_of_brace (jdocI_getLast tsConfigJDoc)
  · exact oneTrailingNL_of_brace (jdocC_getLast (shrinkwrapJDoc n))

/-- C7 (counterexample): the LICENSE document is written verbatim
(`writeFile(join(dir, "LICENSE"), LICENSE)`), not passed through the
formatting adapter, refuting the claim for this textual document (the
ignore file is likewise written raw). -/
theorem c7_unformatted_cex :
    (("LICENSE", Content.raw "MIT LICENSE TEXT") ∈
      documents "widgets" none none "a" (fun _ => none) "MIT LICENSE TEXT" id) ∧
    (Content.raw "MIT LICENSE TEXT").isStructured = false ∧
    (Content.raw "MIT LICENSE TEXT").isFormattedDoc = false := by
  refine ⟨by decide, rfl, rfl⟩

/-- C7 (amended): the two source stubs and the test stub are passed
through the formatting adapter with the `typescript` hint and the readme
with the `markdown` hint, while the ignore file and the license are
written byte-verbatim without formatting; the structured documents are
serialized as in C6. -/
theorem c7_formatting (n : String) (f : Option String) (g : Option String)
    (ra : String) (r : String → Option String) (lic : String)
    (cc : String → String) (fmt : String → String → String) :
    (documents n f g ra r lic cc).map (fun q => (q.1, q.2.render fmt)) =
    [ (".npmignore", npmignoreText),
      ("LICENSE", lic),
      ("index.ts", fmt "typescript" (headerdoc (mkPkg n f g ra r) ++ indexFile)),
      ("tests/index.test.ts", fmt "typescript" (testFile cc n)),
      ("src/index.ts", fmt "typescript" indexFile),
      ("tsconfig.json", jdocIndentStr tsConfigJDoc ++ "\n"),
      ("README.md", fmt "markdown" (readmeText n)),
      ("package.json", pkgStr (mkPkg n f g ra r)),
      ("npm-shrinkwrap.json", shrinkwrapStr n) ] := rfl

/-- C8 (counterexample): a name-validation failure is thrown inside the
async IIFE but before the `try` block, so it escapes as an unhandled
promise rejection instead of being caught, converted, and exited with
status zero. -/
theorem c8_uncaught_validation_cex :
    mainRun (some ("Bad Name!", none)) [] (fun _ => true) =
      Outcome.uncaughtRejection (invalidNameMsg "Bad Name!") ∧
    (mainRun (some ("Bad Name!", none)) [] (fun _ => true)).handledExitZero = false := by
  refine ⟨by decide, by decide⟩

/-- C8 (amended): argument errors are reported by the `.fail` handler
and exit with status zero; generation errors raised inside the `try`
block are caught, logged, and converted into a user-facing failure
message with the process ending at status zero; but name-validation
errors are thrown before the `try` block and escape as an unhandled
promise rejection rather than being caught. -/
theorem c8_failure_handling (fs : List String) (w : String → Bool)
    (n : String) (f : Option String) :
    (mainRun none fs w = .usageErrorExitZero "Not enough non-option arguments" ∧
      (mainRun none fs w).handledExitZero = true) ∧
    ((npmValiddate n).validForNewPackages = false →
      mainRun (some (n, f)) fs w = .uncaughtRejection (invalidNameMsg n) ∧
      (mainRun (some (n, f)) fs w).handledExitZero = false) ∧
    (∀ e, (npmValiddate n).validForNewPackages = true →
      (emit fs (dirOf n f) w).err = some e →
      mainRun (some (n, f)) fs w = .reportedFailure e ∧
      (mainRun (some (n, f)) fs w).handledExitZero = true) := by
  refine ⟨⟨rfl, rfl⟩, ?_, ?_⟩
  · intro hv
    simp [mainRun, hv, Outcome.handledExitZero]
  · intro e hv he
    simp [mainRun, hv, he, Outcome.handledExitZero]

/-- C8 (witness): concrete instances of `c8_failure_handling`: an
invalid name escapes as an unhandled rejection, and a pre-existing
directory is caught and reported. -/
theorem c8_witness :
    (mainRun (some ("Bad Name!", none)) [] (fun _ => false) =
      Outcome.uncaughtRejection (invalidNameMsg "Bad Name!")) ∧
    (mainRun (some ("widgets", none)) ["packages/widgets"] (fun _ => false) =
      Outcome.reportedFailure ("EEXIST: file already exists, mkdir " ++ "packages/widgets")) :=
  ⟨((c8_failure_handling [] (fun _ => false) "Bad Name!" none).2.1 (by decide)).1,
   ((c8_failure_handling ["packages/widgets"] (fun _ => false) "widgets" none).2.2
      ("EEXIST: file already exists, mkdir " ++ "packages/widgets") (by decide) (by decide)).1⟩

/-- C9: in every interleaved execution of the emission branches, the
`tests` directory creation occurs strictly before the test-stub write
and the `src` directory creation strictly before the source-stub write
(each two-event branch embeds in order into the trace). -/
theorem c9_mkdir_precedes_write {t : List Ev} (h : Interleaving emissionTasks t) :
    List.Sublist [Ev.mkTests, Ev.wTestStub] t ∧ List.Sublist [Ev.mkSrc, Ev.wSrcStub] t :=
  ⟨h.sublist_of_mem _ (by decide), h.sublist_of_mem _ (by decide)⟩

/-- C9 (witness): the fully sequential trace is an interleaving of the
emission branches, and the theorem applies to it. -/
theorem c9_witness :
    List.Sublist [Ev.mkTests, Ev.wTestStub] seqTrace ∧
    List.Sublist [Ev.mkSrc, Ev.wSrcStub] seqTrace := by
  have h : Interleaving emissionTasks seqTrace := by
    show Interleaving emissionTasks
      [.wNpmignore, .wLicense, .wIndex, .mkTests, .wTestStub, .mkSrc, .wSrcStub,
       .wTsconfig, .wReadme, .wPkg, .wShrinkwrap]
    apply Interleaving.cons Pick.head
    apply Interleaving.cons (Pick.tail Pick.head)
    apply Interleaving.cons (Pick.tail (Pick.tail Pick.head))
    apply Interleaving.cons (Pick.tail (Pick.tail (Pick.tail Pick.head)))
    apply Interleaving.cons (Pick.tail (Pick.tail (Pick.tail Pick.head)))
    apply Interleaving.cons (Pick.tail (Pick.tail (Pick.tail (Pick.tail Pick.head))))
    apply Interleaving.cons (Pick.tail (Pick.tail (Pick.tail (Pick.tail Pick.head))))
    apply Interleaving.cons (Pick.tail (Pick.tail (Pick.tail (Pick.tail (Pick.tail Pick.head)))))
    apply Interleaving.cons
      (Pick.tail (Pick.tail (Pick.tail (Pick.tail (Pick.tail (Pick.tail Pick.head))))))
    apply Interleaving.cons
      (Pick.tail (Pick.tail (Pick.tail (Pick.tail (Pick.tail (Pick.tail (Pick.tail Pick.head)))))))
    apply Interleaving.cons
      (Pick.tail (Pick.tail (Pick.tail (Pick.tail (Pick.tail (Pick.tail (Pick.tail (Pick.tail Pick.head))))))))
    exact Interleaving.nil (by decide)
  exact c9_mkdir_precedes_write h

/-- C10: two runs differing only in the folder override generate
pairwise identical documents (same relative path, byte-identical
rendered content) except the manifest; the manifest differs only in its
`homepage` and `repository` fields, and within `repository` only in
`directory`. -/
theorem c10_folder_independence (n : String) (f1 f2 : Option String)
    (g : Option String) (ra : String) (r : String → Option String)
    (lic : String) (cc : String → String) (fmt : String → String → String) :
    (∀ q ∈ (documents n f1 g ra r lic cc).zip (documents n f2 g ra r lic cc),
      q.1.1 = q.2.1 ∧ (q.1.1 ≠ "package.json" → q.1.2.render fmt = q.2.2.render fmt)) ∧
    mkPkg n f2 g ra r = { mkPkg n f1 g ra r with
      homepage := (mkPkg n f2 g ra r).homepage,
      repository := (mkPkg n f2 g ra r).repository } ∧
    (mkPkg n f2 g ra r).repository = { (mkPkg n f1 g ra r).repository with
      directory := (mkPkg n f2 g ra r).repository.directory } := by
  refine ⟨?_, rfl, rfl⟩
  intro q hq
  simp [documents] at hq
  rcases hq with rfl | rfl | rfl | rfl | rfl | rfl | rfl | rfl | rfl
  · exact ⟨rfl, fun _ => rfl⟩
  · exact ⟨rfl, fun _ => rfl⟩
  · exact ⟨rfl, fun _ => rfl⟩
  · exact ⟨rfl, fun _ => rfl⟩
  · exact ⟨rfl, fun _ => rfl⟩
  · exact ⟨rfl, fun _ => rfl⟩
  · exact ⟨rfl, fun _ => rfl⟩
  · exact ⟨rfl, fun hne => absurd rfl hne⟩
  · exact ⟨rfl, fun _ => rfl⟩

/-- C10 (witness): concrete instance comparing a run without override
against a run with override `w2`: the ignore-file contents agree and the
manifests differ only in the homepage/repository fields. -/
theorem c10_witness :
    Content.render (fun h s => h ++ s) (Content.raw npmignoreText) =
      Content.render (fun h s => h ++ s) (Content.raw npmignoreText) ∧
    mkPkg "widgets" (some "w2") none "a" (fun _ => none) =
      { mkPkg "widgets" none none "a" (fun _ => none) with
        homepage := (mkPkg "widgets" (some "w2") none "a" (fun _ => none)).homepage,
        repository := (mkPkg "widgets" (some "w2") none "a" (fun _ => none)).repository } :=
  ⟨((c10_folder_independence "widgets" none (some "w2") none "a" (fun _ => none) "L" id
      (fun h s => h ++ s)).1
      ((".npmignore", Content.raw npmignoreText), (".npmignore", Content.raw npmignoreText))
      (by decide)).2 (by decide),
   (c10_folder_independence "widgets" none (some "w2") none "a" (fun _ => none) "L" id
      (fun h s => h ++ s)).2.1⟩

end CreateScript
